import Mathlib

/-!
Verification of the call-ms repository (a resilient microservice dispatcher).

The development shallowly embeds the dispatch engine of the three runtime
bindings in the repository:

  * src/msx-node.js    (node transport: msx, retry/call_ndx_1, send_,
                        callOnceOnly, handleResponse, getLocation,
                        getRoutingTable)
  * src/msx-browser.js (browser transport: reqret, send_ with its inline
                        completion guard and ontimeout handler, handleResponse
                        which additionally records resp.status)
  * src/call-ms.js     (GET/POST binding: get, post, retry with the
                        get/post to raw get_/post_ substitution, and a
                        handleResponse variant with redirect/noretry policy)

JavaScript values that flow through these functions are modelled by the
inductive type JVal.  JSON.parse is an external collaborator of the engine
(part of the JS runtime, not of this repository); a transport body is
therefore abstracted by its parse outcome (type Body below).  JavaScript
exceptions are modelled by Except String: a value Except.error m is a thrown
exception that the surrounding code did not catch.  The files all start with
a use-strict directive, so assigning a property to a primitive value throws
a TypeError, and reading .toLowerCase from undefined or calling it on a
non-string throws a TypeError; both are modelled faithfully below.
Char.toLower agrees with the JavaScript toLowerCase on ASCII text, which
covers every HTML marker the code searches for.
-/

/-- A JavaScript value as it appears in the dispatch engine: strings,
numbers, booleans, null, JSON-style objects (association lists of fields)
and arrays.  Arrays carry an extra association list because JavaScript
arrays accept named-property assignment (the code writes resp.noretry onto
whatever JSON.parse returned, including arrays). -/
inductive JVal where
  | str (s : String)
  | num (n : Int)
  | boolean (b : Bool)
  | jnull
  | obj (fields : List (String × JVal))
  | arr (elems : List JVal) (props : List (String × JVal))

/-- Association-list lookup, first binding wins; models reading a named
property of a JavaScript object (none models undefined). -/
def lookupF {α : Type} : List (String × α) → String → Option α
  | [], _ => none
  | (k', v') :: rest, k => if k' = k then some v' else lookupF rest k

/-- Association-list update: overwrite the first binding of the key, or
append a new binding; models assigning a named property. -/
def setF {α : Type} : List (String × α) → String → α → List (String × α)
  | [], k, x => [(k, x)]
  | (k', v') :: rest, k, x =>
      if k' = k then (k, x) :: rest else (k', v') :: setF rest k x

/-- Reading property k of a JavaScript value: objects and arrays have named
properties; on every other value the properties read as undefined (none). -/
def jget : JVal → String → Option JVal
  | JVal.obj fs, k => lookupF fs k
  | JVal.arr _ ps, k => lookupF ps k
  | _, _ => none

/-- Reading property k of a possibly-undefined value (undefined.k would
throw, but the engine only reads properties of values it has checked to be
truthy, so the none case is unreachable there and reads as undefined). -/
def optJget : Option JVal → String → Option JVal
  | some v, k => jget v k
  | none, _ => none

/-- Assigning property k of a JavaScript value under use strict: objects
and arrays accept the assignment, every primitive (and null) throws a
TypeError. -/
def jset : JVal → String → JVal → Except String JVal
  | JVal.obj fs, k, x => Except.ok (JVal.obj (setF fs k x))
  | JVal.arr es ps, k, x => Except.ok (JVal.arr es (setF ps k x))
  | _, _, _ => Except.error "TypeError"

/-- JavaScript truthiness of a value. -/
def jsTruthy : JVal → Bool
  | JVal.str s => decide (s ≠ "")
  | JVal.num n => decide (n ≠ 0)
  | JVal.boolean b => b
  | JVal.jnull => false
  | JVal.obj _ => true
  | JVal.arr _ _ => true

/-- JavaScript truthiness of a possibly-undefined value (undefined is
falsy). -/
def truthyOpt : Option JVal → Bool
  | none => false
  | some v => jsTruthy v

/-- The pair of arguments a completion callback cb(err, res) receives;
none models a null or undefined argument. -/
structure CbArgs where
  err : Option JVal
  res : Option JVal

/-- A transport response body, abstracted by the outcome of the external
JSON.parse collaborator: empty (or absent) text, text that parses to the
JSON value v, or non-empty text that JSON.parse rejects. -/
inductive Body where
  | empty
  | jsonOf (v : JVal)
  | raw (s : String)

/-- The fixed fallback message of handleResponse in all three files. -/
def defaultMsg : String := "Failed to complete. Please try again after some time."

/-- First stage of handleResponse (identical in msx-node.js 186-195,
msx-browser.js 125-134 and call-ms.js 113-122): an empty body becomes
an object with the default message, a parseable body becomes its parsed
value, and an unparseable body is wrapped as a msg field. -/
def parseStage : Body → JVal
  | Body.empty => JVal.obj [("msg", JVal.str defaultMsg)]
  | Body.jsonOf v => v
  | Body.raw s => JVal.obj [("msg", JVal.str s)]

/-- Substring occurrence test on character lists; models
String.prototype.indexOf(marker) != -1. -/
def charsContain : List Char → List Char → Bool
  | needle, [] => needle.isEmpty
  | needle, c :: t => needle.isPrefixOf (c :: t) || charsContain needle t

/-- The twelve HTML markers is_html_1 looks for (msx-node.js 215-226,
identical lists in msx-browser.js and call-ms.js). -/
def htmlMarkers : List String :=
  ["<html", "</html>", "<head ", "</head>", "<body", "</body>",
   "<pre", "</pre>", "<span>", "</span>", "<div>", "</div>"]

/-- Embeds is_html_1 (msx-node.js 212-229): lower-case the message and
guess it is an HTML page when more than two of the fixed markers occur. -/
def is_html_1 (msg : String) : Bool :=
  let m := msg.toList.map Char.toLower
  2 < (htmlMarkers.filter (fun mk => charsContain mk.toList m)).length

/-- Embeds the error branch of handleResponse in msx-node.js 199-206
(identical in the second part of src/unnamed/part_000): set noretry for
every status other than 0 and 500, then run is_html_1 on resp.msg --
which throws a TypeError when resp has no string msg property (reading
.toLowerCase of undefined, or .toLowerCase of a non-string) and throws
when resp is a primitive (strict-mode property assignment).
msgStage is the verbatim-identical tail shared by the handleResponse
variants of all three files: run is_html_1 on resp.msg and substitute the
default message for a message that looks like an HTML error page. -/
def msgStage (r1 : JVal) : Except String JVal :=
  match jget r1 "msg" with
  | some (JVal.str m) =>
      if is_html_1 m then jset r1 "msg" (JVal.str defaultMsg) else Except.ok r1
  | _ => Except.error "TypeError"

def classifyErr (status : Int) (resp : JVal) : Except String JVal :=
  match (if status ≠ 0 ∧ status ≠ 500
         then jset resp "noretry" (JVal.boolean true)
         else Except.ok resp) with
  | Except.error m => Except.error m
  | Except.ok r1 => msgStage r1

/-- Embeds handleResponse of msx-node.js 185-230: parse the body, deliver
success for status 200 regardless of body shape, otherwise classify the
error and deliver it as the callback error argument.  An Except.error
result is a thrown exception; handleResponse runs inside the res end
event handler (gather_response_1, msx-node.js 138-145), which no try/catch
encloses, so a thrown TypeError escapes the dispatch boundary. -/
def handleResponse (status : Int) (body : Body) : Except String CbArgs :=
  let resp := parseStage body
  if status = 200 then Except.ok ⟨none, some resp⟩
  else
    match classifyErr status resp with
    | Except.ok e => Except.ok ⟨some e, none⟩
    | Except.error m => Except.error m

/-- Embeds the error branch of handleResponse in msx-browser.js 124-171:
same as the node variant except that resp.status = status is recorded
first (msx-browser.js 138). -/
def classifyErrB (status : Int) (resp : JVal) : Except String JVal :=
  match jset resp "status" (JVal.num status) with
  | Except.error m => Except.error m
  | Except.ok r0 =>
    match (if status ≠ 0 ∧ status ≠ 500
           then jset r0 "noretry" (JVal.boolean true)
           else Except.ok r0) with
    | Except.error m => Except.error m
    | Except.ok r1 => msgStage r1

/-- Embeds handleResponse of msx-browser.js 124-171. -/
def handleResponseB (status : Int) (body : Body) : Except String CbArgs :=
  let resp := parseStage body
  if status = 200 then Except.ok ⟨none, some resp⟩
  else
    match classifyErrB status resp with
    | Except.ok e => Except.ok ⟨some e, none⟩
    | Except.error m => Except.error m

/-- Embeds the error branch of handleResponse in call-ms.js 112-159: a
different policy from the node variant, set redirect for status 300 and
noretry only for 400 <= status < 500 (call-ms.js 126-127). -/
def classifyErrCM (status : Int) (resp : JVal) : Except String JVal :=
  match (if status = 300 then jset resp "redirect" (JVal.boolean true) else Except.ok resp) with
  | Except.error m => Except.error m
  | Except.ok r0 =>
    match (if 400 ≤ status ∧ status < 500
           then jset r0 "noretry" (JVal.boolean true)
           else Except.ok r0) with
    | Except.error m => Except.error m
    | Except.ok r1 => msgStage r1

/-- Embeds handleResponse of call-ms.js 112-159. -/
def handleResponseCM (status : Int) (body : Body) : Except String CbArgs :=
  let resp := parseStage body
  if status = 200 then Except.ok ⟨none, some resp⟩
  else
    match classifyErrCM status resp with
    | Except.ok e => Except.ok ⟨some e, none⟩
    | Except.error m => Except.error m

/-- The observable outcome of one run of the retry loop for a single
logical call: how many transport attempts were made, the delays (in
seconds) scheduled between consecutive attempts, and the arguments of the
one callback invocation that ends the loop. -/
structure RunOut where
  attempts : Nat
  delays : List Int
  delivered : CbArgs

/-- Embeds call_ndx_1, the body of retry (msx-node.js 77-87; the same loop
appears verbatim in call-ms.js 43-52, msx-browser.js 46-57 and
src/unnamed/part_000): the outcome of attempt number i is given by the
oracle o (each attempt is one send_ exchange).  On a falsy err the result
is delivered; otherwise, if the schedule is exhausted or err.noretry is
truthy the failure is delivered; otherwise the next attempt is scheduled
after schedule[ndx] - schedule[ndx-1] seconds (schedule[ndx] when ndx is
0) and the loop recurses. -/
def call_ndx_1 (schedule : List Int) (o : Nat → CbArgs) (ndx : Nat) : RunOut :=
  let args := o ndx
  if truthyOpt args.err = false then ⟨1, [], args⟩
  else if _h : schedule.length ≤ ndx then ⟨1, [], args⟩
  else if truthyOpt (optJget args.err "noretry") = true then ⟨1, [], args⟩
  else
    let retryafter : Int :=
      schedule.getD ndx 0 - (if ndx = 0 then 0 else schedule.getD (ndx - 1) 0)
    let rest := call_ndx_1 schedule o (ndx + 1)
    ⟨rest.attempts + 1, retryafter :: rest.delays, rest.delivered⟩
termination_by schedule.length - ndx
decreasing_by simp_wf; omega

/-- The three ways the synchronous part of msx (msx-node.js 38-58) can go:
the try/catch catches a synchronous throw and hands it to the callback
(can_retry_1 calls type.startsWith, which throws a TypeError when type is
not a string); a type with the once: marker is stripped and sent exactly
once without the scheduler; every other string type goes through retry
with the fixed schedule. -/
inductive MsxSync where
  | caught (e : String)
  | onceSend (effType : String)
  | retrying (type : String)

/-- JavaScript String.prototype.startsWith: p is a prefix of s. -/
def jsStartsWith (s p : String) : Bool := p.toList.isPrefixOf s.toList

/-- Embeds the synchronous dispatch phase of msx: can_retry_1 and strip_1
(msx-node.js 44-57).  strip_1 drops the five characters of the prefix. -/
def msxSyncRun : JVal → MsxSync
  | JVal.str s =>
      if jsStartsWith s "once:" then MsxSync.onceSend (s.drop 5)
      else MsxSync.retrying s
  | _ => MsxSync.caught "TypeError"

/-- Embeds msx (msx-node.js 38-58) at the level of attempt outcomes: a
caught synchronous throw makes zero transport attempts and delivers the
exception to the callback; a once: call is a single send_ exchange whose
outcome is delivered unconditionally; otherwise retry runs with the fixed
schedule [1,5,15,25]. -/
def msxRun (type : JVal) (o : Nat → CbArgs) : RunOut :=
  match msxSyncRun type with
  | MsxSync.caught e => ⟨0, [], ⟨some (JVal.str e), none⟩⟩
  | MsxSync.onceSend _ => ⟨1, [], o 0⟩
  | MsxSync.retrying _ => call_ndx_1 [1, 5, 15, 25] o 0

/-- State-threading core of callOnceOnly: process the invocations of the
guarded callback in order, with the called flag, collecting the
invocations that actually reach cb. -/
def onceGo : Bool → List CbArgs → List CbArgs
  | _, [] => []
  | true, _ :: rest => onceGo true rest
  | false, a :: rest => a :: onceGo true rest

/-- Embeds callOnceOnly (msx-node.js 159-166): given the chronological
list of invocations of the guarded callback, returns the list of
invocations delivered to the wrapped cb (the called flag starts false). -/
def callOnceOnlyRun (invs : List CbArgs) : List CbArgs := onceGo false invs

/-- The error object the node timeout handler delivers:
cb({ timeout: true }) at msx-node.js 131. -/
def timeoutObj : JVal := JVal.obj [("timeout", JVal.boolean true)]

/-- A terminal signal the node transport can emit for one attempt: the
response end event (which runs handleResponse), a request error event
(req.on error at msx-node.js 129), or the 10s timeout firing
(req.setTimeout at msx-node.js 130-133). -/
inductive TEvent where
  | response (status : Int) (body : Body)
  | reqError (e : JVal)
  | timeoutFires

/-- What one attempt observably does for a chronological list of transport
signals: the callback invocations that pass the completion guard, the
number of req.abort calls, and whether an uncaught exception was thrown
while handling a response (which stops the process). -/
structure AttemptTrace where
  delivered : List CbArgs
  aborts : Nat
  crashed : Bool

/-- Embeds the event handlers of send_ (msx-node.js 94-146) threaded
through the callOnceOnly guard: a response event runs handleResponse and
hands its callback invocation to the guard (a thrown TypeError crashes);
an error event hands the error to the guard; the timeout handler hands
{ timeout: true } to the guard and then aborts the request (the abort
happens whether or not the guard already fired, since it is outside the
guard). -/
def runEvents : List TEvent → Bool → AttemptTrace
  | [], _ => ⟨[], 0, false⟩
  | TEvent.response s b :: rest, called =>
      match handleResponse s b with
      | Except.ok args =>
          let t := runEvents rest true
          if called then t else ⟨args :: t.delivered, t.aborts, t.crashed⟩
      | Except.error _ => ⟨[], 0, true⟩
  | TEvent.reqError e :: rest, called =>
      let t := runEvents rest true
      if called then t else ⟨⟨some e, none⟩ :: t.delivered, t.aborts, t.crashed⟩
  | TEvent.timeoutFires :: rest, called =>
      let t := runEvents rest true
      if called then ⟨t.delivered, t.aborts + 1, t.crashed⟩
      else ⟨⟨some timeoutObj, none⟩ :: t.delivered, t.aborts + 1, t.crashed⟩

/-- Embeds the browser ontimeout handler (msx-browser.js 84-88): when the
xhr times out it runs handleResponse(504, null, cb), i.e. the browser
variant of the classifier on status 504 with an absent body. -/
def browserTimeoutResult : Except String CbArgs := handleResponseB 504 Body.empty

/-- A resolved network location: url.parse of a http host with an optional
port (msx-node.js 233 and 270). -/
structure Url where
  hostname : String
  port : Option Int

/-- Embeds ROUTING_TABLE_URL (msx-node.js 233): the fixed registry
location, url.parse of a localhost address without a port. -/
def ROUTING_TABLE_URL : Url := ⟨"localhost", none⟩

/-- Embeds rt_1 (msx-node.js 269-271): the endpoint for a routing-table
entry with the given port. -/
def rt_1 (port : Int) : Url := ⟨"localhost", some port⟩

/-- A routing-table record as getRoutingTable consumes it: the registry
responds with records carrying a type and a port (msx-node.js 260-263). -/
structure Route where
  rtype : String
  rport : Int

/-- Embeds the table-building loop of getRoutingTable (msx-node.js
259-263): starting from the empty table, ROUTING_TABLE[route.type] =
rt_1(route.port) for each record in order (later records overwrite
earlier ones with the same type). -/
def buildTable (routes : List Route) : List (String × Url) :=
  routes.foldl (fun t r => setF t r.rtype (rt_1 r.rport)) []

/-- What one getLocation call (msx-node.js 241-250) does, depending on the
state of the shared ROUTING_TABLE: the reserved type answers with the
fixed registry location without consulting the table; with a populated
table the lookup is answered synchronously from the table; with an
unpopulated table getLocation calls getRoutingTable, which dispatches one
msx call to the reserved type (one bootstrap dispatch per lookup -- there
is no in-flight guard in the code, and ROUTING_TABLE is only assigned
inside the success callback of getRoutingTable, so lookups arriving
before any bootstrap completes all see an unpopulated table). -/
inductive LocAction where
  | reserved
  | cached (u : Option Url)
  | bootstrap

/-- Embeds getLocation (msx-node.js 241-250) as the action one lookup
takes for a given table state. -/
def getLocationAction (table : Option (List (String × Url))) (type : String) : LocAction :=
  if type = "--routes" then LocAction.reserved
  else
    match table with
    | some t => LocAction.cached (lookupF t type)
    | none => LocAction.bootstrap

/-- Number of bootstrap dispatches (msx calls to the reserved type) one
getLocation call issues in the given table state. -/
def bootstrapsOf (table : Option (List (String × Url))) (type : String) : Nat :=
  match getLocationAction table type with
  | LocAction.bootstrap => 1
  | _ => 0

/-- Total bootstrap dispatches issued by a sequence of lookups that all
run against the same table state (the state lookups observe while no
bootstrap has completed yet, since only a completed bootstrap assigns
ROUTING_TABLE). -/
def bootDispatches (table : Option (List (String × Url))) (lookups : List String) : Nat :=
  (lookups.map (bootstrapsOf table)).sum

/-- What dispatching one call does once the location is resolved: either a
terminal error is delivered to the callback with no transport exchange,
or exactly one transport exchange is issued to the resolved location. -/
inductive DispatchAction where
  | deliverErr (e : JVal)
  | transport (u : Url)

/-- The no-route error object of send_to_url_1 (msx-node.js 103-108). -/
def noRouteErr (type : String) : JVal :=
  JVal.obj [("msg", JVal.str ("Error - no route to " ++ type ++ " found")),
            ("noretry", JVal.boolean true)]

/-- Embeds one send_ dispatch against a populated routing table
(msx-node.js 94-136 composed with getLocation 241-250): the reserved type
goes to the fixed registry location; a type present in the table goes to
its endpoint; a type absent from the table resolves to an undefined
location, which send_to_url_1 turns into the terminal no-route error
without issuing a request. -/
def sendAction (table : List (String × Url)) (type : String) : DispatchAction :=
  if type = "--routes" then DispatchAction.transport ROUTING_TABLE_URL
  else
    match lookupF table type with
    | some u => DispatchAction.transport u
    | none => DispatchAction.deliverErr (noRouteErr type)

/-- The function identifiers of call-ms.js that can be handed to its retry
as the attempt function: the public retrying entry points get and post
(call-ms.js 8-19) and the raw single-shot functions get_ and post_
(call-ms.js 55-61). -/
inductive FnId where
  | get
  | post
  | get_
  | post_
deriving DecidableEq

/-- Embeds the substitution at the top of retry in call-ms.js 28-29:
if fn == get it becomes get_, if fn == post it becomes post_. -/
def substFn : FnId → FnId
  | FnId.get => FnId.get_
  | FnId.post => FnId.post_
  | f => f

/-- Whether a function identifier is one of the raw single-shot functions
(one send_ exchange per invocation, no retry loop inside). -/
def isRaw : FnId → Bool
  | FnId.get_ => true
  | FnId.post_ => true
  | _ => false

/-- Whether a function identifier invokes retry when called (get and post
each call retry with the fixed schedule, call-ms.js 8-19). -/
def invokesRetry : FnId → Bool
  | FnId.get => true
  | FnId.post => true
  | _ => false

/-- The observable outcome of one run of retry in call-ms.js 27-53: the
attempt function actually used by the loop (after the substitution),
and the loop behaviour, which is the shared call_ndx_1 loop where each
invocation of the (raw) attempt function is one transport attempt. -/
structure CMRun where
  usedFn : FnId
  attempts : Nat
  delivered : CbArgs

/-- Embeds retry of call-ms.js 27-53: substitute the raw function for a
retrying one, then run the call_ndx_1 loop, each iteration invoking the
substituted function once. -/
def cmRetryRun (schedule : List Int) (fn : FnId) (o : Nat → CbArgs) : CMRun :=
  let fn' := substFn fn
  let r := call_ndx_1 schedule o 0
  ⟨fn', r.attempts, r.delivered⟩

lemma lookupF_setF_self {α : Type} (l : List (String × α)) (k : String) (x : α) :
    lookupF (setF l k x) k = some x := by
  induction l with
  | nil => simp [setF, lookupF]
  | cons h t ih =>
      obtain ⟨k', v'⟩ := h
      by_cases hk : k' = k
      · simp [setF, hk, lookupF]
      · simp [setF, hk, lookupF, ih]

lemma lookupF_setF_ne {α : Type} (l : List (String × α)) (k k' : String) (x : α)
    (h : k ≠ k') : lookupF (setF l k x) k' = lookupF l k' := by
  induction l with
  | nil => simp [setF, lookupF, h]
  | cons hd t ih =>
      obtain ⟨k0, v0⟩ := hd
      by_cases hk : k0 = k
      · subst hk
        simp [setF, lookupF, h]
      · simp [setF, hk, lookupF, ih]

lemma onceGo_true (invs : List CbArgs) : onceGo true invs = [] := by
  induction invs with
  | nil => rfl
  | cons a rest ih => simp [onceGo, ih]

lemma runEvents_called (evs : List TEvent) : (runEvents evs true).delivered = [] := by
  induction evs with
  | nil => simp [runEvents]
  | cons e rest ih =>
      cases e with
      | response s b =>
          simp only [runEvents]
          cases handleResponse s b with
          | ok args => simpa [runEvents] using ih
          | error m => simp
      | reqError e => simpa [runEvents] using ih
      | timeoutFires => simpa [runEvents] using ih

/-- Unfolding of one loop step of call_ndx_1 for proofs. -/
lemma call_ndx_1_eq (schedule : List Int) (o : Nat → CbArgs) (ndx : Nat) :
    call_ndx_1 schedule o ndx =
      (let args := o ndx
       if truthyOpt args.err = false then ⟨1, [], args⟩
       else if schedule.length ≤ ndx then ⟨1, [], args⟩
       else if truthyOpt (optJget args.err "noretry") = true then ⟨1, [], args⟩
       else
         let retryafter : Int :=
           schedule.getD ndx 0 - (if ndx = 0 then 0 else schedule.getD (ndx - 1) 0)
         let rest := call_ndx_1 schedule o (ndx + 1)
         ⟨rest.attempts + 1, retryafter :: rest.delays, rest.delivered⟩) := by
  rw [call_ndx_1]
  simp only [dite_eq_ite]

lemma call_ndx_1_all_retryable (s : List Int) (o : Nat → CbArgs)
    (H : ∀ i, truthyOpt (o i).err = true ∧ truthyOpt (optJget (o i).err "noretry") = false) :
    ∀ k ndx, s.length - ndx ≤ k → ndx ≤ s.length →
      (call_ndx_1 s o ndx).attempts = s.length - ndx + 1 ∧
      (call_ndx_1 s o ndx).delays.length = s.length - ndx ∧
      ∀ j, j < s.length - ndx →
        (call_ndx_1 s o ndx).delays.getD j 0 =
          s.getD (ndx + j) 0 - (if ndx + j = 0 then 0 else s.getD (ndx + j - 1) 0) := by
  intro k
  induction k with
  | zero =>
      intro ndx hk hle
      have hnd : ndx = s.length := by omega
      subst hnd
      rw [call_ndx_1_eq]
      refine ⟨by simp [(H s.length).1], by simp [(H s.length).1], ?_⟩
      intro j hj
      omega
  | succ k ih =>
      intro ndx hk hle
      by_cases hnd : s.length ≤ ndx
      · have hnd' : ndx = s.length := by omega
        subst hnd'
        rw [call_ndx_1_eq]
        refine ⟨by simp [(H s.length).1], by simp [(H s.length).1], ?_⟩
        intro j hj
        omega
      · have hlt : ndx < s.length := by omega
        have hrec := ih (ndx + 1) (by omega) (by omega)
        rw [call_ndx_1_eq]
        simp only [(H ndx).1, (H ndx).2, Bool.true_eq_false, if_false, if_neg hnd,
          Bool.false_eq_true]
        refine ⟨?_, ?_, ?_⟩
        · have h := hrec.1
          omega
        · simp only [List.length_cons]
          have h := hrec.2.1
          omega
        · intro j hj
          cases j with
          | zero => simp
          | succ j' =>
              rw [List.getD_cons_succ, hrec.2.2 j' (by omega)]
              have h1 : ndx + 1 + j' = ndx + (j' + 1) := by omega
              rw [h1]

lemma call_ndx_1_attempts_le (s : List Int) (o : Nat → CbArgs) :
    ∀ k ndx, s.length - ndx ≤ k →
      (call_ndx_1 s o ndx).attempts ≤ s.length - ndx + 1 := by
  intro k
  induction k with
  | zero =>
      intro ndx hk
      rw [call_ndx_1_eq]
      have hnd : s.length ≤ ndx := by omega
      by_cases h1 : truthyOpt (o ndx).err = false
      · simp [h1]
      · simp [h1, hnd]
  | succ k ih =>
      intro ndx hk
      rw [call_ndx_1_eq]
      by_cases h1 : truthyOpt (o ndx).err = false
      · simp [h1]
      · by_cases h2 : s.length ≤ ndx
        · simp [h1, h2]
        · by_cases h3 : truthyOpt (optJget (o ndx).err "noretry") = true
          · simp [h1, h2, h3]
          · simp only [h1, h2, h3, if_false]
            have := ih (ndx + 1) (by omega)
            simp only [Bool.true_eq_false, Bool.false_eq_true, if_false]
            omega

/-- An attempt-outcome oracle on which every attempt fails with a
retryable error: err is the truthy object with a msg and no noretry
property. -/
def failRetry : Nat → CbArgs :=
  fun _ => ⟨some (JVal.obj [("msg", JVal.str "boom")]), none⟩

/-- An attempt-outcome oracle on which every attempt fails with a
non-retryable error (noretry set). -/
def failNR : Nat → CbArgs :=
  fun _ => ⟨some (JVal.obj [("msg", JVal.str "boom"), ("noretry", JVal.boolean true)]), none⟩

/-- An attempt-outcome oracle on which every attempt fails with the node
timeout error object. -/
def oTimeout : Nat → CbArgs := fun _ => ⟨some timeoutObj, none⟩

/-- Whether a JavaScript value is a string. -/
def isStrV : JVal → Bool
  | JVal.str _ => true
  | _ => false

/-- A sample populated routing table with a single adder service. -/
def sampleTable : List (String × Url) := [("adder", rt_1 8081)]

/-- C1: for every retry schedule s and every attempt-outcome sequence in
which each attempt fails with a retryable error, the retry scheduler
(call_ndx_1, msx-node.js 77-87 and msx-browser.js 46-57) performs exactly
s.length + 1 attempts, and the delay scheduled before attempt i+1 is
s[i] - s[i-1] seconds for i > 0 and s[0] seconds for i = 0. -/
theorem retry_scheduler_counts_and_delays (s : List Int) (o : Nat → CbArgs)
    (H : ∀ i, truthyOpt (o i).err = true ∧ truthyOpt (optJget (o i).err "noretry") = false) :
    (call_ndx_1 s o 0).attempts = s.length + 1 ∧
    (call_ndx_1 s o 0).delays.length = s.length ∧
    ∀ i, i < s.length →
      (call_ndx_1 s o 0).delays.getD i 0 =
        s.getD i 0 - (if i = 0 then 0 else s.getD (i - 1) 0) := by
  have h := call_ndx_1_all_retryable s o H s.length 0 (by omega) (by omega)
  refine ⟨by simpa using h.1, by simpa using h.2.1, ?_⟩
  intro i hi
  have hj := h.2.2 i (by omega)
  simpa using hj

/-- Witness for C1 at the default schedule with an always-retryable
failure oracle. -/
theorem retry_scheduler_counts_and_delays_witness :
    (call_ndx_1 [1, 5, 15, 25] failRetry 0).attempts = [1, 5, 15, 25].length + 1 ∧
    (call_ndx_1 [1, 5, 15, 25] failRetry 0).delays.length = [1, 5, 15, 25].length ∧
    ∀ i, i < [1, 5, 15, 25].length →
      (call_ndx_1 [1, 5, 15, 25] failRetry 0).delays.getD i 0 =
        [1, 5, 15, 25].getD i 0 - (if i = 0 then 0 else [1, 5, 15, 25].getD (i - 1) 0) :=
  retry_scheduler_counts_and_delays [1, 5, 15, 25] failRetry (fun _ => ⟨rfl, rfl⟩)

/-- C3: exactly one transport attempt is made and its outcome delivered
unconditionally when (a) the first attempt error is non-retryable,
whatever the schedule; (b) the schedule is empty, whatever the
classification; (c) the caller used the once: name-prefix marker,
whatever the outcome (msx, msx-node.js 38-58 and retry 64-88). -/
theorem single_attempt_cases :
    (∀ (s : List Int) (o : Nat → CbArgs),
        truthyOpt (o 0).err = true →
        truthyOpt (optJget (o 0).err "noretry") = true →
        (call_ndx_1 s o 0).attempts = 1 ∧ (call_ndx_1 s o 0).delivered = o 0) ∧
    (∀ o : Nat → CbArgs,
        (call_ndx_1 [] o 0).attempts = 1 ∧ (call_ndx_1 [] o 0).delivered = o 0) ∧
    (∀ (ty : String) (o : Nat → CbArgs),
        jsStartsWith ty "once:" = true →
        (msxRun (JVal.str ty) o).attempts = 1 ∧ (msxRun (JVal.str ty) o).delivered = o 0) := by
  refine ⟨?_, ?_, ?_⟩
  · intro s o h1 h2
    rw [call_ndx_1_eq]
    by_cases hl : s.length ≤ 0
    · simp [h1, hl]
    · simp [h1, h2, hl]
  · intro o
    rw [call_ndx_1_eq]
    by_cases h1 : truthyOpt (o 0).err = false
    · simp [h1]
    · simp [h1]
  · intro ty o h
    simp [msxRun, msxSyncRun, h]

/-- Witness for C3: a non-retryable first failure under schedule [1, 5],
the empty schedule under a retryable failure, and a once-prefixed call. -/
theorem single_attempt_cases_witness :
    ((call_ndx_1 [1, 5] failNR 0).attempts = 1 ∧
      (call_ndx_1 [1, 5] failNR 0).delivered = failNR 0) ∧
    ((call_ndx_1 [] failRetry 0).attempts = 1 ∧
      (call_ndx_1 [] failRetry 0).delivered = failRetry 0) ∧
    ((msxRun (JVal.str "once:mailer") failRetry).attempts = 1 ∧
      (msxRun (JVal.str "once:mailer") failRetry).delivered = failRetry 0) :=
  ⟨single_attempt_cases.1 [1, 5] failNR rfl rfl,
   single_attempt_cases.2.1 failRetry,
   single_attempt_cases.2.2 "once:mailer" failRetry rfl⟩

/-- C4: for every callback and every non-empty sequence of invocations of
the guarded callback returned by callOnceOnly (msx-node.js 159-166), the
callback is invoked exactly once, with the arguments of the
chronologically first invocation; later invocations are discarded. -/
theorem completion_guard_first_only (invs : List CbArgs) (h : invs ≠ []) :
    callOnceOnlyRun invs = [invs.head h] := by
  cases invs with
  | nil => exact absurd rfl h
  | cons a rest => simp [callOnceOnlyRun, onceGo, onceGo_true]

/-- Witness for C4: two completion signals, only the first is delivered. -/
theorem completion_guard_first_only_witness :
    callOnceOnlyRun [⟨some timeoutObj, none⟩, ⟨none, some (JVal.num 1)⟩] =
      [(⟨some timeoutObj, none⟩ : CbArgs)] :=
  completion_guard_first_only [⟨some timeoutObj, none⟩, ⟨none, some (JVal.num 1)⟩] (by simp)

/-- C7: for every response with status 200 the classifier
(handleResponse, msx-node.js 185-197) delivers success with a null error,
regardless of body shape; a JSON body of an object with a = 1 yields that
object, and an empty body yields the default-message object. -/
theorem status200_success_any_body :
    (∀ b : Body, handleResponse 200 b = Except.ok ⟨none, some (parseStage b)⟩) ∧
    handleResponse 200 (Body.jsonOf (JVal.obj [("a", JVal.num 1)])) =
      Except.ok ⟨none, some (JVal.obj [("a", JVal.num 1)])⟩ ∧
    handleResponse 200 Body.empty =
      Except.ok ⟨none, some (JVal.obj [("msg", JVal.str defaultMsg)])⟩ := by
  refine ⟨?_, rfl, rfl⟩
  intro b
  simp [handleResponse]

/-- C10: retry in call-ms.js 27-53 substitutes the raw non-retrying
function before the first attempt whenever its fn argument is the public
retrying entry point get or post; the function the loop uses never itself
invokes retry, and the number of transport attempts is bounded by
schedule length + 1 for every outcome sequence. -/
theorem cm_retry_substitutes_raw (s : List Int) (o : Nat → CbArgs) :
    (cmRetryRun s FnId.get o).usedFn = FnId.get_ ∧
    (cmRetryRun s FnId.post o).usedFn = FnId.post_ ∧
    (∀ fn, invokesRetry ((cmRetryRun s fn o).usedFn) = false) ∧
    (∀ fn, isRaw ((cmRetryRun s fn o).usedFn) = true) ∧
    (∀ fn, (cmRetryRun s fn o).attempts ≤ s.length + 1) := by
  refine ⟨rfl, rfl, ?_, ?_, ?_⟩
  · intro fn; cases fn <;> rfl
  · intro fn; cases fn <;> rfl
  · intro fn
    have h := call_ndx_1_attempts_le s o s.length 0 (by omega)
    simpa [cmRetryRun] using h

lemma msgStage_obj (gs : List (String × JVal)) (m : String)
    (hm : lookupF gs "msg" = some (JVal.str m)) :
    ∃ gs2, msgStage (JVal.obj gs) = Except.ok (JVal.obj gs2) ∧
      ∀ k, k ≠ "msg" → lookupF gs2 k = lookupF gs k := by
  by_cases hh : is_html_1 m
  · refine ⟨setF gs "msg" (JVal.str defaultMsg), by simp [msgStage, jget, hm, hh, jset], ?_⟩
    intro k hk
    exact lookupF_setF_ne _ _ _ _ (fun h => hk h.symm)
  · exact ⟨gs, by simp [msgStage, jget, hm, hh], fun k _ => rfl⟩

lemma classifyErr_obj (status : Int) (fs : List (String × JVal)) (m : String)
    (hm : lookupF fs "msg" = some (JVal.str m)) :
    ∃ gs, classifyErr status (JVal.obj fs) = Except.ok (JVal.obj gs) ∧
      lookupF gs "noretry" =
        (if status ≠ 0 ∧ status ≠ 500 then some (JVal.boolean true)
         else lookupF fs "noretry") := by
  by_cases hc : status ≠ 0 ∧ status ≠ 500
  · have hm1 : lookupF (setF fs "noretry" (JVal.boolean true)) "msg" = some (JVal.str m) := by
      rw [lookupF_setF_ne _ _ _ _ (by decide)]
      exact hm
    obtain ⟨gs2, hg, hk⟩ := msgStage_obj _ m hm1
    refine ⟨gs2, ?_, ?_⟩
    · simp [classifyErr, hc, jset, hg]
    · rw [hk "noretry" (by decide), lookupF_setF_self, if_pos hc]
  · obtain ⟨gs2, hg, hk⟩ := msgStage_obj fs m hm
    refine ⟨gs2, ?_, ?_⟩
    · simp [classifyErr, hc, hg]
    · rw [hk "noretry" (by decide), if_neg hc]

lemma classifyErrCM_obj (status : Int) (fs : List (String × JVal)) (m : String)
    (hm : lookupF fs "msg" = some (JVal.str m)) :
    ∃ gs, classifyErrCM status (JVal.obj fs) = Except.ok (JVal.obj gs) ∧
      lookupF gs "noretry" =
        (if 400 ≤ status ∧ status < 500 then some (JVal.boolean true)
         else lookupF fs "noretry") := by
  obtain ⟨fs0, hr0, hm0, hn0⟩ :
      ∃ fs0, (if status = 300 then jset (JVal.obj fs) "redirect" (JVal.boolean true)
              else Except.ok (JVal.obj fs)) = Except.ok (JVal.obj fs0) ∧
        lookupF fs0 "msg" = some (JVal.str m) ∧
        lookupF fs0 "noretry" = lookupF fs "noretry" := by
    by_cases h3 : status = 300
    · refine ⟨setF fs "redirect" (JVal.boolean true), by simp [h3, jset], ?_, ?_⟩
      · rw [lookupF_setF_ne _ _ _ _ (by decide)]
        exact hm
      · exact lookupF_setF_ne _ _ _ _ (by decide)
    · exact ⟨fs, by simp [h3], hm, rfl⟩
  by_cases hc : 400 ≤ status ∧ status < 500
  · have hm1 : lookupF (setF fs0 "noretry" (JVal.boolean true)) "msg" = some (JVal.str m) := by
      rw [lookupF_setF_ne _ _ _ _ (by decide)]
      exact hm0
    obtain ⟨gs2, hg, hk⟩ := msgStage_obj _ m hm1
    refine ⟨gs2, ?_, ?_⟩
    · simp only [classifyErrCM]
      rw [hr0]
      simp [hc, jset, hg]
    · rw [hk "noretry" (by decide), lookupF_setF_self, if_pos hc]
  · obtain ⟨gs2, hg, hk⟩ := msgStage_obj fs0 m hm0
    refine ⟨gs2, ?_, ?_⟩
    · simp only [classifyErrCM]
      rw [hr0]
      simp [hc, hg]
    · rw [hk "noretry" (by decide), hn0, if_neg hc]

/-- C2 counterexample: the claim fails as stated, in two ways.  First,
status 500 does not always produce an error without the noretry flag:
a JSON body that itself carries noretry is passed through unchanged, so
handleResponse 500 delivers an error whose noretry flag is set.  Second,
in the call-ms.js classifier a non-200 status other than 0 and 500 does
not always produce an error with the noretry flag: status 503 falls
outside the 400-499 window that classifier marks, so the delivered error
has no noretry property at all. -/
theorem classifier_retryability_cex :
    (handleResponse 500
        (Body.jsonOf (JVal.obj [("msg", JVal.str "x"), ("noretry", JVal.boolean true)])) =
      Except.ok ⟨some (JVal.obj [("msg", JVal.str "x"), ("noretry", JVal.boolean true)]), none⟩ ∧
     truthyOpt (optJget
        (some (JVal.obj [("msg", JVal.str "x"), ("noretry", JVal.boolean true)])) "noretry") = true) ∧
    (handleResponseCM 503 (Body.raw "oops") =
      Except.ok ⟨some (JVal.obj [("msg", JVal.str "oops")]), none⟩ ∧
     truthyOpt (optJget (some (JVal.obj [("msg", JVal.str "oops")])) "noretry") = false) :=
  ⟨⟨rfl, rfl⟩, ⟨rfl, rfl⟩⟩

/-- C2 amended: for every non-200 status and every body whose processed
form is an object with a string msg and no noretry property of its own,
the node classifier (handleResponse, msx-node.js 185-230) marks the error
noretry exactly when the status is neither 0 nor 500, and the call-ms.js
classifier (handleResponse, call-ms.js 112-159) marks it noretry exactly
when 400 <= status < 500; a body carrying its own noretry property is
passed through on the statuses the classifier leaves alone, and a
processed body without a string msg raises a TypeError instead of
invoking the callback. -/
theorem classifier_retryability_amended (status : Int) (body : Body)
    (fs : List (String × JVal)) (m : String)
    (h200 : status ≠ 200)
    (hp : parseStage body = JVal.obj fs)
    (hm : lookupF fs "msg" = some (JVal.str m))
    (hn : lookupF fs "noretry" = none) :
    (∃ e, handleResponse status body = Except.ok ⟨some e, none⟩ ∧
       (truthyOpt (optJget (some e) "noretry") = true ↔ ¬(status = 0 ∨ status = 500))) ∧
    (∃ e, handleResponseCM status body = Except.ok ⟨some e, none⟩ ∧
       (truthyOpt (optJget (some e) "noretry") = true ↔ (400 ≤ status ∧ status < 500))) := by
  constructor
  · obtain ⟨gs, hg, hnr⟩ := classifyErr_obj status fs m hm
    refine ⟨JVal.obj gs, ?_, ?_⟩
    · simp [handleResponse, hp, h200, hg]
    · have hq : optJget (some (JVal.obj gs)) "noretry" = lookupF gs "noretry" := rfl
      rw [hq, hnr, hn]
      by_cases hc : status ≠ 0 ∧ status ≠ 500
      · rw [if_pos hc]
        simp [truthyOpt, jsTruthy]
        tauto
      · rw [if_neg hc]
        simp [truthyOpt]
        tauto
  · obtain ⟨gs, hg, hnr⟩ := classifyErrCM_obj status fs m hm
    refine ⟨JVal.obj gs, ?_, ?_⟩
    · simp [handleResponseCM, hp, h200, hg]
    · have hq : optJget (some (JVal.obj gs)) "noretry" = lookupF gs "noretry" := rfl
      rw [hq, hnr, hn]
      by_cases hc : 400 ≤ status ∧ status < 500
      · rw [if_pos hc]
        simp [truthyOpt, jsTruthy]
        omega
      · rw [if_neg hc]
        simp [truthyOpt]
        omega

/-- Witness for the amended C2 at status 404 with a plain text body. -/
theorem classifier_retryability_amended_witness :
    (∃ e, handleResponse 404 (Body.raw "oops") = Except.ok ⟨some e, none⟩ ∧
       (truthyOpt (optJget (some e) "noretry") = true ↔ ¬((404 : Int) = 0 ∨ (404 : Int) = 500))) ∧
    (∃ e, handleResponseCM 404 (Body.raw "oops") = Except.ok ⟨some e, none⟩ ∧
       (truthyOpt (optJget (some e) "noretry") = true ↔ (400 ≤ (404 : Int) ∧ (404 : Int) < 500))) :=
  classifier_retryability_amended 404 (Body.raw "oops") [("msg", JVal.str "oops")] "oops"
    (by decide) rfl rfl rfl

lemma call_ndx_1_attempts_pos (s : List Int) (o : Nat → CbArgs) (ndx : Nat) :
    1 ≤ (call_ndx_1 s o ndx).attempts := by
  rw [call_ndx_1_eq]
  by_cases h1 : truthyOpt (o ndx).err = false
  · simp [h1]
  · by_cases h2 : s.length ≤ ndx
    · simp [h1, h2]
    · by_cases h3 : truthyOpt (optJget (o ndx).err "noretry") = true
      · simp [h1, h2, h3]
      · simp [h1, h2, h3]

/-- C5 counterexample: the code has no in-flight bootstrap guard.  Two
lookups for non-reserved names issued while the routing table is
unpopulated (and before any bootstrap completes, so ROUTING_TABLE is
still unset for both) each call getRoutingTable, issuing two bootstrap
dispatches in total, not one. -/
theorem bootstrap_single_dispatch_cex :
    bootDispatches none ["a", "b"] = 2 ∧ (2 : Nat) ≠ 1 :=
  ⟨rfl, by decide⟩

/-- C5 amended: every lookup for a non-reserved name issued while the
routing table is unpopulated triggers its own bootstrap dispatch (N
lookups mean N dispatches, so several can be in flight at once); once a
bootstrap has completed and populated the table, lookups are answered
synchronously from the table and no further bootstrap dispatch is
issued (getLocation, msx-node.js 241-250; getRoutingTable 255-272). -/
theorem bootstrap_per_lookup_amended :
    (∀ lookups : List String,
        bootDispatches none lookups = lookups.countP (fun t => !(t == "--routes"))) ∧
    (∀ type : String, type ≠ "--routes" →
        getLocationAction none type = LocAction.bootstrap) ∧
    (∀ (tbl : List (String × Url)) (lookups : List String),
        bootDispatches (some tbl) lookups = 0) ∧
    (∀ (tbl : List (String × Url)) (type : String), type ≠ "--routes" →
        getLocationAction (some tbl) type = LocAction.cached (lookupF tbl type)) := by
  refine ⟨?_, ?_, ?_, ?_⟩
  · intro lookups
    induction lookups with
    | nil => rfl
    | cons t rest ih =>
        simp only [bootDispatches, List.map_cons, List.sum_cons, List.countP_cons] at ih ⊢
        by_cases ht : t = "--routes"
        · simp [bootstrapsOf, getLocationAction, ht, ih]
        · simp [bootstrapsOf, getLocationAction, ht, ih, beq_iff_eq]
          omega
  · intro type h
    simp [getLocationAction, h]
  · intro tbl lookups
    induction lookups with
    | nil => rfl
    | cons t rest ih =>
        have hb : bootstrapsOf (some tbl) t = 0 := by
          by_cases ht : t = "--routes" <;> simp [bootstrapsOf, getLocationAction, ht]
        simp only [bootDispatches, List.map_cons, List.sum_cons] at ih ⊢
        rw [hb, ih]
  · intro tbl type h
    simp [getLocationAction, h]

/-- Witness for the amended C5: three pending lookups issue one dispatch
each (the reserved name none); a populated table issues none and answers
from the table. -/
theorem bootstrap_per_lookup_amended_witness :
    bootDispatches none ["svc1", "svc2", "--routes"] =
      (["svc1", "svc2", "--routes"].countP (fun t => !(t == "--routes"))) ∧
    getLocationAction none "svc1" = LocAction.bootstrap ∧
    bootDispatches (some sampleTable) ["svc1", "adder"] = 0 ∧
    getLocationAction (some sampleTable) "adder" = LocAction.cached (lookupF sampleTable "adder") :=
  ⟨bootstrap_per_lookup_amended.1 ["svc1", "svc2", "--routes"],
   bootstrap_per_lookup_amended.2.1 "svc1" (by decide),
   bootstrap_per_lookup_amended.2.2.1 sampleTable ["svc1", "adder"],
   bootstrap_per_lookup_amended.2.2.2 sampleTable "adder" (by decide)⟩

/-- C6 counterexample: the reserved name is a logical name a caller can
dispatch (getRoutingTable itself does), and getLocation answers it with
the fixed registry location before ever consulting the table
(msx-node.js 242).  So for a populated table with no entry for
the reserved name, dispatching it issues a transport exchange instead of
delivering the no-route error, refuting the claim as universally stated. -/
theorem no_route_reserved_cex :
    lookupF sampleTable "--routes" = none ∧
    sendAction sampleTable "--routes" = DispatchAction.transport ROUTING_TABLE_URL :=
  ⟨rfl, rfl⟩

/-- C6 amended: for every non-reserved logical name absent from a
populated routing table, dispatch delivers the terminal error object
with msg set to the no-route message for that name and noretry set, and
no transport exchange is attempted (getLocation msx-node.js 241-250 with
send_to_url_1 102-108). -/
theorem no_route_terminal_error_amended (table : List (String × Url)) (type : String)
    (hres : type ≠ "--routes") (habs : lookupF table type = none) :
    sendAction table type = DispatchAction.deliverErr (noRouteErr type) ∧
    optJget (some (noRouteErr type)) "msg" =
      some (JVal.str ("Error - no route to " ++ type ++ " found")) ∧
    optJget (some (noRouteErr type)) "noretry" = some (JVal.boolean true) ∧
    ∀ u, sendAction table type ≠ DispatchAction.transport u := by
  have h1 : sendAction table type = DispatchAction.deliverErr (noRouteErr type) := by
    simp [sendAction, hres, habs]
  refine ⟨h1, rfl, rfl, ?_⟩
  intro u h
  rw [h1] at h
  exact DispatchAction.noConfusion h

/-- Witness for the amended C6 at the mailer example of the spec. -/
theorem no_route_terminal_error_witness :
    sendAction sampleTable "mailer" = DispatchAction.deliverErr (noRouteErr "mailer") ∧
    optJget (some (noRouteErr "mailer")) "msg" =
      some (JVal.str "Error - no route to mailer found") ∧
    optJget (some (noRouteErr "mailer")) "noretry" = some (JVal.boolean true) ∧
    ∀ u, sendAction sampleTable "mailer" ≠ DispatchAction.transport u :=
  no_route_terminal_error_amended sampleTable "mailer" (by decide) rfl

/-- C8 counterexample: in the browser transport the timeout handler runs
handleResponse(504, null, cb) (msx-browser.js 84-88), and status 504 is
neither 0 nor 500, so the delivered error carries noretry: the browser
timeout is classified terminal, not retryable, refuting the claim for
browser attempts that time out. -/
theorem timeout_retryable_cex :
    browserTimeoutResult =
      Except.ok ⟨some (JVal.obj [("msg", JVal.str defaultMsg), ("status", JVal.num 504),
        ("noretry", JVal.boolean true)]), none⟩ ∧
    truthyOpt (optJget (some (JVal.obj [("msg", JVal.str defaultMsg), ("status", JVal.num 504),
        ("noretry", JVal.boolean true)])) "noretry") = true :=
  ⟨rfl, rfl⟩

/-- C8 amended: in the node transport (msx-node.js 130-133), an attempt
whose exchange times out delivers exactly one terminal signal through the
completion guard, namely the timeout error object, whatever signals
follow; the request is aborted; the timeout error has no noretry
property, so the retry scheduler re-attempts it when schedule remains.
In the browser transport the timeout is instead classified through
status 504 and delivered with noretry set (terminal). -/
theorem timeout_guard_and_classification_amended (rest : List TEvent) :
    (runEvents (TEvent.timeoutFires :: rest) false).delivered = [⟨some timeoutObj, none⟩] ∧
    1 ≤ (runEvents (TEvent.timeoutFires :: rest) false).aborts ∧
    truthyOpt (optJget (some timeoutObj) "noretry") = false ∧
    (∀ (s : List Int) (o : Nat → CbArgs), s ≠ [] → o 0 = ⟨some timeoutObj, none⟩ →
        2 ≤ (call_ndx_1 s o 0).attempts) ∧
    browserTimeoutResult = Except.ok ⟨some (JVal.obj [("msg", JVal.str defaultMsg),
        ("status", JVal.num 504), ("noretry", JVal.boolean true)]), none⟩ ∧
    truthyOpt (optJget (some (JVal.obj [("msg", JVal.str defaultMsg), ("status", JVal.num 504),
        ("noretry", JVal.boolean true)])) "noretry") = true := by
  refine ⟨?_, ?_, rfl, ?_, rfl, rfl⟩
  · simp [runEvents, runEvents_called]
  · simp [runEvents]
  · intro s o hs ho
    rw [call_ndx_1_eq]
    have h1 : truthyOpt (o 0).err = true := by rw [ho]; rfl
    have h2 : truthyOpt (optJget (o 0).err "noretry") = false := by rw [ho]; rfl
    have hl : ¬(s.length ≤ 0) := by
      cases s with
      | nil => exact absurd rfl hs
      | cons a t => simp
    simp only [h1, h2, hl, Bool.true_eq_false, Bool.false_eq_true, if_false]
    have hp := call_ndx_1_attempts_pos s o (0 + 1)
    omega

/-- Witness for the amended C8: a timeout followed by a late error event,
and a one-entry schedule on which the scheduler re-attempts. -/
theorem timeout_guard_and_classification_witness :
    (runEvents (TEvent.timeoutFires :: [TEvent.reqError (JVal.str "late")]) false).delivered =
      [⟨some timeoutObj, none⟩] ∧
    2 ≤ (call_ndx_1 [1] oTimeout 0).attempts :=
  ⟨(timeout_guard_and_classification_amended [TEvent.reqError (JVal.str "late")]).1,
   (timeout_guard_and_classification_amended [TEvent.reqError (JVal.str "late")]).2.2.2.1
     [1] oTimeout (by decide) rfl⟩

/-- C9 counterexample: a non-200 response whose body parses as a JSON
object without a string msg field makes is_html_1 read .toLowerCase of
undefined, a TypeError.  handleResponse runs inside the res end event
handler (msx-node.js 138-145), outside the try/catch of msx (44-49), so
the exception is not caught and never delivered to the callback: it
escapes the dispatch boundary, refuting the claim at this input. -/
theorem dispatch_exception_cex :
    handleResponse 404 (Body.jsonOf (JVal.obj [("a", JVal.num 1)])) =
      Except.error "TypeError" :=
  rfl

/-- C9 amended: synchronous exceptions raised during the initial dispatch
phase (inside the try of msx, e.g. calling type.startsWith when type is
not a string) are caught and delivered to the callback as a terminal
error with zero transport attempts; exceptions raised later while
handling a transport response (e.g. a non-200 JSON body without a string
msg field) are not caught and escape. -/
theorem dispatch_exception_amended :
    (∀ (v : JVal) (o : Nat → CbArgs), isStrV v = false →
        msxRun v o = ⟨0, [], ⟨some (JVal.str "TypeError"), none⟩⟩) ∧
    handleResponse 404 (Body.jsonOf (JVal.obj [("a", JVal.num 1)])) =
      Except.error "TypeError" := by
  refine ⟨?_, rfl⟩
  intro v o h
  cases v <;> simp_all [msxRun, msxSyncRun, isStrV]

/-- Witness for the amended C9 at a null dispatch type. -/
theorem dispatch_exception_amended_witness :
    msxRun JVal.jnull failRetry = ⟨0, [], ⟨some (JVal.str "TypeError"), none⟩⟩ ∧
    handleResponse 404 (Body.jsonOf (JVal.obj [("a", JVal.num 1)])) =
      Except.error "TypeError" :=
  ⟨dispatch_exception_amended.1 JVal.jnull failRetry rfl,
   dispatch_exception_amended.2⟩
